import Mathlib

/-!
Verification development for `mnist_gan.py`, a Wasserstein GAN for MNIST digits.

The program is embedded shallowly:
* float32 tensors become `Tensor α` (a shape plus row-major data) over a linear
  ordered field `α`; the structural claims are settled at `α = ℚ` (exact,
  executable arithmetic) and the claims involving the sigmoid at `α = ℝ`;
* TensorFlow variables become identifiers (`VarId`) mapping to tensor values in
  a `Store`, mirroring the fact that each layer owns distinct variable objects
  created in order by `GAN.__init__`;
* graph operations (`tf.clip_by_value`, `tf.assign`, `minimize(var_list=...)`)
  become store transformers;
* the body of the `while True` training loop in `train` becomes a concrete
  list of events, and the command dispatch of `main` becomes a pure function from
  the argument vector to its observable outcome.
-/

/-- Identifier of a TensorFlow variable.  `GAN.__init__` creates the layer
variables in a fixed order, so each variable gets a fixed index. -/
abbrev VarId := Nat

/-- A tensor: its shape and its entries in row-major order (`numpy`/TF layout). -/
structure Tensor (α : Type) where
  shape : List Nat
  data : List α
deriving DecidableEq

/-- The global assignment of values to TensorFlow variables. -/
abbrev Store (α : Type) := VarId → Tensor α

section TensorOps

variable {α : Type} [LinearOrderedField α] [FloorRing α]

/-- Read entry `(i, j)` of a rank-2 tensor; out-of-range reads give `0`
(used only for the zero padding of `SAME` convolutions; in-range reads are
the ordinary row-major lookup). -/
def Tensor.get2 (t : Tensor α) (i j : Nat) : α :=
  let d0 := t.shape.getD 0 0
  let d1 := t.shape.getD 1 0
  if i < d0 ∧ j < d1 then t.data.getD (i * d1 + j) 0 else 0

/-- Read entry `(i, j, k, l)` of a rank-4 tensor; out-of-range reads give `0`. -/
def Tensor.get4 (t : Tensor α) (i j k l : Nat) : α :=
  let d0 := t.shape.getD 0 0
  let d1 := t.shape.getD 1 0
  let d2 := t.shape.getD 2 0
  let d3 := t.shape.getD 3 0
  if i < d0 ∧ j < d1 ∧ k < d2 ∧ l < d3 then
    t.data.getD (((i * d1 + j) * d2 + k) * d3 + l) 0
  else 0

/-- Elementwise map over a tensor (e.g. `tf.sigmoid`). -/
def Tensor.map (f : α → α) (t : Tensor α) : Tensor α :=
  ⟨t.shape, t.data.map f⟩

/-- Elementwise subtraction of same-shaped tensors, as in
`self.discriminate(gen_samples) - self.discriminate(samples)`. -/
def Tensor.sub (a b : Tensor α) : Tensor α :=
  ⟨a.shape, List.zipWith (fun x y => x - y) a.data b.data⟩

/-- `tf.reduce_mean`: the sum of all entries divided by their count. -/
def Tensor.mean (t : Tensor α) : α :=
  t.data.sum / (t.data.length : α)

/-- `tf.clip_by_value(x, -mag, mag)` on a scalar:
`min(max(x, -mag), mag)`. -/
def clipValue (mag x : α) : α :=
  min (max x (-mag)) mag

/-- `tf.clip_by_value(x, -mag, mag)` applied elementwise to a tensor. -/
def Tensor.clip (mag : α) (t : Tensor α) : Tensor α :=
  ⟨t.shape, t.data.map (clipValue mag)⟩

/-- `tf.nn.relu`: elementwise `max(x, 0)`. -/
def relu (x : α) : α := max x 0

/-- An all-zero tensor of the given shape. -/
def Tensor.zeros (shape : List Nat) : Tensor α :=
  ⟨shape, List.replicate shape.prod 0⟩

/-- `FC.apply`: `tf.matmul(inputs, weights) + biases`, with the bias row
broadcast over the batch, then `tf.nn.relu` unless the activation is
disabled. -/
def fcApply (activation : Bool) (weights biases inputs : Tensor α) : Tensor α :=
  let bsz := inputs.shape.getD 0 0
  let k := inputs.shape.getD 1 0
  let n := weights.shape.getD 1 0
  ⟨[bsz, n],
    (List.range bsz).flatMap (fun i =>
      (List.range n).map (fun j =>
        let pre := ((List.range k).map
            (fun t => Tensor.get2 inputs i t * Tensor.get2 weights t j)).sum
          + Tensor.get2 biases 0 j
        if activation then relu pre else pre))⟩

/-- `Conv.apply`: `tf.nn.convolution(inputs, filters, SAME, strides)`
(`strides=None` meaning stride 1), plus the broadcast bias, then `tf.nn.relu`
unless the activation is disabled.  `SAME` output size is `ceil(dim/stride)`
and the total padding `max((out-1)*stride + k - dim, 0)` is split with the
smaller half on the top/left, reads outside the input being `0`. -/
def convApply (activation : Bool) (strides : Option (List Nat))
    (filters biases inputs : Tensor α) : Tensor α :=
  let st := strides.getD [1, 1]
  let sh := st.getD 0 1
  let sw := st.getD 1 1
  let nb := inputs.shape.getD 0 0
  let h := inputs.shape.getD 1 0
  let w := inputs.shape.getD 2 0
  let c := inputs.shape.getD 3 0
  let kh := filters.shape.getD 0 0
  let kw := filters.shape.getD 1 0
  let oc := filters.shape.getD 3 0
  let outH := (h + sh - 1) / sh
  let outW := (w + sw - 1) / sw
  let padTop := (((outH - 1) * sh + kh) - h) / 2
  let padLeft := (((outW - 1) * sw + kw) - w) / 2
  ⟨[nb, outH, outW, oc],
    (List.range nb).flatMap (fun bi =>
      (List.range outH).flatMap (fun y =>
        (List.range outW).flatMap (fun x =>
          (List.range oc).map (fun o =>
            let acc := ((List.range kh).map (fun dy =>
              ((List.range kw).map (fun dx =>
                ((List.range c).map (fun ci =>
                  (let iy := y * sh + dy
                   let ix := x * sw + dx
                   if iy < padTop ∨ ix < padLeft then 0
                   else Tensor.get4 inputs bi (iy - padTop) (ix - padLeft) ci)
                    * Tensor.get4 filters dy dx ci o)).sum)).sum)).sum
            let pre := acc + Tensor.get2 biases 0 o
            if activation then relu pre else pre))))⟩

/-- `Reshape.apply`: `tf.reshape(inputs, [tf.shape(inputs)[0]] + self.shape)` —
the data is untouched, the per-example shape is replaced. -/
def reshapeApply (shape : List Nat) (inputs : Tensor α) : Tensor α :=
  ⟨inputs.shape.getD 0 0 :: shape, inputs.data⟩

/-- `Resize.apply`: `tf.image.resize_images(inputs, size)` — bilinear
interpolation (the TF1 default, `align_corners=False`): the source coordinate
of output row `y` is `y * (in/out)`, interpolated between its floor and the
next row (clamped to the image), and likewise for columns. -/
def resizeApply (size : List Nat) (inputs : Tensor α) : Tensor α :=
  let outH := size.getD 0 0
  let outW := size.getD 1 0
  let nb := inputs.shape.getD 0 0
  let h := inputs.shape.getD 1 0
  let w := inputs.shape.getD 2 0
  let c := inputs.shape.getD 3 0
  let scaleH : α := (h : α) / (outH : α)
  let scaleW : α := (w : α) / (outW : α)
  ⟨[nb, outH, outW, c],
    (List.range nb).flatMap (fun bi =>
      (List.range outH).flatMap (fun y =>
        (List.range outW).flatMap (fun x =>
          (List.range c).map (fun ci =>
            let inY := (y : α) * scaleH
            let inX := (x : α) * scaleW
            let y0 := (Int.floor inY).toNat
            let x0 := (Int.floor inX).toNat
            let y1 := min (y0 + 1) (h - 1)
            let x1 := min (x0 + 1) (w - 1)
            let fy := inY - (y0 : α)
            let fx := inX - (x0 : α)
            let top := Tensor.get4 inputs bi y0 x0 ci
              + (Tensor.get4 inputs bi y0 x1 ci - Tensor.get4 inputs bi y0 x0 ci) * fx
            let bottom := Tensor.get4 inputs bi y1 x0 ci
              + (Tensor.get4 inputs bi y1 x1 ci - Tensor.get4 inputs bi y1 x0 ci) * fx
            top + (bottom - top) * fy))))⟩

end TensorOps

/-- A layer of `mnist_gan.py`.  The trainable parameters are TensorFlow
variables, referenced here by identifier; the configuration (activation flag,
target shapes, strides) is the constructor arguments of the Python classes
`FC`, `Reshape`, `Resize` and `Conv`. -/
inductive Layer where
  | fc (activation : Bool) (weightsId biasesId : VarId)
  | reshape (shape : List Nat)
  | resize (size : List Nat)
  | conv (activation : Bool) (strides : Option (List Nat)) (filtersId biasesId : VarId)
deriving DecidableEq

/-- `vars` of each layer class: `FC` and `Conv` own `[weights, biases]`
(resp. `[filters, biases]`); `Reshape` and `Resize` own `[]`. -/
def Layer.vars : Layer → List VarId
  | .fc _ w b => [w, b]
  | .reshape _ => []
  | .resize _ => []
  | .conv _ _ f b => [f, b]

section LayerApply

variable {α : Type} [LinearOrderedField α] [FloorRing α]

/-- `apply` of each layer class, reading the variables of the layer from the store. -/
def Layer.apply (s : Store α) : Layer → Tensor α → Tensor α
  | .fc act w b, inputs => fcApply act (s w) (s b) inputs
  | .reshape shape, inputs => reshapeApply shape inputs
  | .resize size, inputs => resizeApply size inputs
  | .conv act strides f b, inputs => convApply act strides (s f) (s b) inputs

/-- `apply_network`: feed the batch through each layer in sequence. -/
def apply_network (s : Store α) (network : List Layer) (inputs : Tensor α) : Tensor α :=
  network.foldl (fun sub_in layer => layer.apply s sub_in) inputs

end LayerApply

/-- `network_vars`: concatenate the parameters of each layer in order
(`res = []; for layer in network: res.extend(layer.vars())`). -/
def network_vars (network : List Layer) : List VarId :=
  network.foldl (fun res layer => res ++ layer.vars) []

/-- The generator of `GAN.__init__` (`noise_size = 100`): three
fully-connected layers to a flat 14×14 representation, reshape, resize to
28×28, then four 3×3 convolutions, the last one without activation.
`GAN.__init__` builds the generator first, so its variables get
identifiers 0–13 in creation order (weights before biases in each layer). -/
def generator : List Layer :=
  [Layer.fc true 0 1,
   Layer.fc true 2 3,
   Layer.fc true 4 5,
   Layer.reshape [14, 14, 1],
   Layer.resize [28, 28],
   Layer.conv true none 6 7,
   Layer.conv true none 8 9,
   Layer.conv true none 10 11,
   Layer.conv false none 12 13]

/-- The discriminator of `GAN.__init__`: two stride-2 convolutions around a
stride-1 convolution, reshape to a flat `7*7*16 = 784` vector, three
fully-connected layers, the last without activation.  Its variables are
created after those of the generator and get identifiers 14–25. -/
def discriminator : List Layer :=
  [Layer.conv true (some [2, 2]) 14 15,
   Layer.conv true none 16 17,
   Layer.conv true (some [2, 2]) 18 19,
   Layer.reshape [784],
   Layer.fc true 20 21,
   Layer.fc true 22 23,
   Layer.fc false 24 25]

/-- `GAN.generator_vars`. -/
def generator_vars : List VarId := network_vars generator

/-- `GAN.discriminator_vars`. -/
def discriminator_vars : List VarId := network_vars discriminator

/-- The shape of each variable, from the layer constructor calls of
`GAN.__init__` with `noise_size = 100`: e.g. variable 0 is the weight matrix
`[100, 14*14]` of the first generator `FC` layer, and variable 14 is the
filter bank `[3, 3, 1, 16]` of the first discriminator convolution. -/
def varShapes : List (List Nat) :=
  [[100, 196], [1, 196], [196, 196], [1, 196], [196, 196], [1, 196],
   [3, 3, 1, 16], [1, 16], [3, 3, 16, 32], [1, 32], [3, 3, 32, 32], [1, 32],
   [3, 3, 32, 1], [1, 1],
   [3, 3, 1, 16], [1, 16], [3, 3, 16, 32], [1, 32], [3, 3, 32, 16], [1, 16],
   [784, 256], [1, 256], [256, 256], [1, 256], [256, 1], [1, 1]]

section StoreOps

variable {α : Type} [LinearOrderedField α] [FloorRing α]

/-- A store holding, for every variable of the `GAN`, an all-zero tensor of
the shape declared by `GAN.__init__` (the Gaussian initial draws are external
randomness; any store models a reachable parameter assignment). -/
def freshStore : Store α :=
  fun id => Tensor.zeros (varShapes.getD id [])

/-- `GAN.clip_discriminator(mag)`: the group of ops
`tf.assign(x, tf.clip_by_value(x, -mag, mag))`, one per variable in
`discriminator_vars()`.  The assigned variables are pairwise distinct and
each assignment reads only its own variable, so running the group is the
pointwise store update on the members of `discriminator_vars`. -/
def clip_discriminator (mag : α) (s : Store α) : Store α :=
  fun id => if id ∈ discriminator_vars then Tensor.clip mag (s id) else s id

/-- An optimizer step built by `AdamOptimizer.minimize(obj, var_list=vs)`:
the engine applies a gradient update to exactly the variables in `var_list`
and leaves every other variable untouched.  The numerical update itself
(gradients, Adam moments) belongs to the external engine and is abstracted
as `upd`. -/
def optimizerStep (varList : List VarId) (upd : VarId → Tensor α → Tensor α)
    (s : Store α) : Store α :=
  fun id => if id ∈ varList then upd id (s id) else s id

/-- `sess.run(opt_gen)` in `train`: `opt_gen` was built with
`var_list=gan.generator_vars()`. -/
def opt_gen_step (upd : VarId → Tensor α → Tensor α) (s : Store α) : Store α :=
  optimizerStep generator_vars upd s

/-- `sess.run(opt_disc)` in `train`: `opt_disc` was built with
`var_list=gan.discriminator_vars()`. -/
def opt_disc_step (upd : VarId → Tensor α → Tensor α) (s : Store α) : Store α :=
  optimizerStep discriminator_vars upd s

/-- `GAN.discriminate(images)`: the raw discriminator network output. -/
def discriminate (s : Store α) (images : Tensor α) : Tensor α :=
  apply_network s discriminator images

end StoreOps

/-- `tf.sigmoid`: `1 / (1 + exp(-x))`. -/
noncomputable def sigmoid (x : ℝ) : ℝ :=
  1 / (1 + Real.exp (-x))

/-- `GAN.generate(noise)`: `tf.sigmoid(apply_network(self.generator, noise))`. -/
noncomputable def generate (s : Store ℝ) (noise : Tensor ℝ) : Tensor ℝ :=
  Tensor.map sigmoid (apply_network s generator noise)

/-- `GAN.generator_objective(noise)`:
`-tf.reduce_mean(self.discriminate(gen_out))` with `gen_out = self.generate(noise)`. -/
noncomputable def generator_objective (s : Store ℝ) (noise : Tensor ℝ) : ℝ :=
  let gen_out := generate s noise;
  -Tensor.mean (discriminate s gen_out)

/-- `GAN.discriminator_objective(noise, samples)`:
`tf.reduce_mean(self.discriminate(gen_samples) - self.discriminate(samples))`
with `gen_samples = self.generate(noise)`. -/
noncomputable def discriminator_objective (s : Store ℝ) (noise samples : Tensor ℝ) : ℝ :=
  let gen_samples := generate s noise;
  Tensor.mean (Tensor.sub (discriminate s gen_samples) (discriminate s samples))

/-- The three model operations `main` can dispatch to. -/
inductive Command where
  | create
  | train
  | generate
deriving DecidableEq

/-- The observable outcome of one run of `main`: the lines printed by the
dispatch code itself, the model operation invoked (if any), and the process
exit code (`sys.exit()` with no argument exits with code 0, as does falling
off the end of the script). -/
structure MainOutcome where
  printed : List String
  dispatched : Option Command
  exitCode : Nat
deriving DecidableEq

/-- The usage line printed when no subcommand is given. -/
def usageMessage : String := "Usage: mnist_gan <create | train | generate>"

/-- `main()`: the `if len(sys.argv) < 2` guard followed by the
`create`/`train`/`generate` dispatch on `sys.argv[1]`, with the
`Unknown command` fallback.  `argv` includes the program name at index 0. -/
def mainRun (argv : List String) : MainOutcome :=
  if argv.length < 2 then
    ⟨[usageMessage], none, 0⟩
  else if argv.getD 1 "" = "create" then
    ⟨[], some Command.create, 0⟩
  else if argv.getD 1 "" = "train" then
    ⟨[], some Command.train, 0⟩
  else if argv.getD 1 "" = "generate" then
    ⟨[], some Command.generate, 0⟩
  else
    ⟨["Unknown command: " ++ argv.getD 1 ""], none, 0⟩

/-- The externally observable actions of the body of the `while True` loop in
`train`, in program order. -/
inductive TrainEvent where
  | sampleBatch
  | evalDiscLoss
  | discGradStep
  | clipStep
  | evalGenLoss
  | printLosses
  | genGradStep
  | saveCheckpoint
deriving DecidableEq, BEq

/-- One outer iteration of the training loop in `train`: thirty rounds of
(`sample_feed_dict`, `sess.run(disc_obj)`, `sess.run(opt_disc)`,
`sess.run(clip_disc)`), then `sample_feed_dict`, `sess.run(gen_obj)`, the
`print` of the averaged discriminator loss and the generator loss,
`sess.run(opt_gen)`, and finally `saver.save`.  The `while True` loop repeats
exactly this list forever. -/
def trainIteration : List TrainEvent :=
  (List.replicate 30
    [TrainEvent.sampleBatch, TrainEvent.evalDiscLoss,
     TrainEvent.discGradStep, TrainEvent.clipStep]).flatten
  ++ [TrainEvent.sampleBatch, TrainEvent.evalGenLoss, TrainEvent.printLosses,
      TrainEvent.genGradStep, TrainEvent.saveCheckpoint]

/-- Conjunction of `p` over a list, without a membership binder. -/
def allP {β : Type _} (p : β → Prop) : List β → Prop
  | [] => True
  | x :: xs => p x ∧ allP p xs

lemma allP_of_forall {β : Type _} {p : β → Prop} :
    ∀ l : List β, (∀ x ∈ l, p x) → allP p l
  | [], _ => trivial
  | x :: xs, h =>
    ⟨h x (List.mem_cons_self x xs),
     allP_of_forall xs (fun y hy => h y (List.mem_cons_of_mem x hy))⟩

lemma allP_map {β γ : Type _} (f : β → γ) (p : γ → Prop) (h : ∀ x, p (f x)) :
    ∀ l : List β, allP p (l.map f)
  | [] => trivial
  | x :: xs => ⟨h x, allP_map f p h xs⟩

section ClipLemmas

variable {α : Type} [LinearOrderedField α]

lemma clipValue_mem (mag : α) (hmag : 0 ≤ mag) (x : α) :
    -mag ≤ clipValue mag x ∧ clipValue mag x ≤ mag := by
  unfold clipValue
  refine ⟨le_min (le_max_right x (-mag)) (neg_le_self hmag), min_le_right _ _⟩

lemma clipValue_fix {mag x : α} (h1 : -mag ≤ x) (h2 : x ≤ mag) :
    clipValue mag x = x := by
  unfold clipValue
  rw [max_eq_left h1, min_eq_left h2]

lemma clipValue_idem (mag : α) (hmag : 0 ≤ mag) (x : α) :
    clipValue mag (clipValue mag x) = clipValue mag x :=
  clipValue_fix (clipValue_mem mag hmag x).1 (clipValue_mem mag hmag x).2

lemma map_clipValue_clipValue (mag : α) (hmag : 0 ≤ mag) :
    ∀ l : List α, (l.map (clipValue mag)).map (clipValue mag) = l.map (clipValue mag)
  | [] => rfl
  | x :: xs => by
      simp only [List.map_cons, List.cons.injEq]
      exact ⟨clipValue_idem mag hmag x, map_clipValue_clipValue mag hmag xs⟩

lemma Tensor.clip_clip (mag : α) (hmag : 0 ≤ mag) (t : Tensor α) :
    Tensor.clip mag (Tensor.clip mag t) = Tensor.clip mag t := by
  simp only [Tensor.clip]
  exact congrArg (Tensor.mk t.shape) (map_clipValue_clipValue mag hmag t.data)

end ClipLemmas

lemma generator_vars_eq :
    generator_vars = [0, 1, 2, 3, 4, 5, 6, 7, 8, 9, 10, 11, 12, 13] := rfl

lemma discriminator_vars_eq :
    discriminator_vars = [14, 15, 16, 17, 18, 19, 20, 21, 22, 23, 24, 25] := rfl

lemma not_mem_disc_of_mem_gen {id : VarId} (h : id ∈ generator_vars) :
    id ∉ discriminator_vars := by
  rw [generator_vars_eq] at h
  fin_cases h <;> decide

lemma not_mem_gen_of_mem_disc {id : VarId} (h : id ∈ discriminator_vars) :
    id ∉ generator_vars := by
  rw [discriminator_vars_eq] at h
  fin_cases h <;> decide

lemma sum_zipWith_sub {α : Type} [LinearOrderedField α] :
    ∀ a b : List α, a.length = b.length →
      (List.zipWith (fun x y => x - y) a b).sum = a.sum - b.sum
  | [], [], _ => by simp
  | [], y :: ys, h => by simp at h
  | x :: xs, [], h => by simp at h
  | x :: xs, y :: ys, h => by
      have ih := sum_zipWith_sub xs ys (by simpa using h)
      simp only [List.zipWith_cons_cons, List.sum_cons, ih]
      ring

lemma sigmoid_mem_unit (x : ℝ) : 0 ≤ sigmoid x ∧ sigmoid x ≤ 1 := by
  unfold sigmoid
  have hexp : 0 < Real.exp (-x) := Real.exp_pos (-x)
  have hden : (0 : ℝ) < 1 + Real.exp (-x) := by linarith
  constructor
  · exact div_nonneg zero_le_one hden.le
  · rw [div_le_one hden]
    linarith


/-- C1: for every noise batch and every real-image batch,
`discriminator_objective(noise, real_images)` is the mean over the batch of
`discriminate(generate(noise))` minus `discriminate(real_images)`, in exactly
that order; and the mean of the elementwise difference of two equally sized
score tensors is the mean generated score minus the mean real score. -/
theorem discriminator_objective_mean_gen_minus_real (s : Store ℝ)
    (noise samples : Tensor ℝ) :
    discriminator_objective s noise samples
      = Tensor.mean (Tensor.sub (discriminate s (generate s noise))
          (discriminate s samples))
    ∧ ∀ a b : Tensor ℝ, a.data.length = b.data.length →
        Tensor.mean (Tensor.sub a b) = Tensor.mean a - Tensor.mean b := by
  constructor
  · rfl
  · intro a b h
    simp only [Tensor.mean, Tensor.sub]
    rw [sum_zipWith_sub a.data b.data h, List.length_zipWith, h, min_self,
      sub_div]

/-- Witness for C1 at concrete one-element score tensors. -/
theorem discriminator_objective_mean_gen_minus_real_wit :
    Tensor.mean (Tensor.sub (⟨[1], [0]⟩ : Tensor ℝ) (⟨[1], [1]⟩ : Tensor ℝ))
      = Tensor.mean (⟨[1], [(0 : ℝ)]⟩ : Tensor ℝ)
        - Tensor.mean (⟨[1], [(1 : ℝ)]⟩ : Tensor ℝ) :=
  (discriminator_objective_mean_gen_minus_real (freshStore : Store ℝ)
    ⟨[], []⟩ ⟨[], []⟩).2 ⟨[1], [0]⟩ ⟨[1], [1]⟩ rfl

/-- C2: immediately after `clip_discriminator(mag=0.01)`, every element of
every discriminator parameter tensor lies in `[-0.01, 0.01]`. -/
theorem clip_discriminator_bounds_params (s : Store ℚ) :
    allP (fun id =>
        allP (fun x => -(1/100 : ℚ) ≤ x ∧ x ≤ 1/100)
          ((clip_discriminator (1/100) s id).data))
      discriminator_vars := by
  apply allP_of_forall
  intro id hid
  simp only [clip_discriminator, if_pos hid, Tensor.clip]
  exact allP_map (clipValue (1/100)) _
    (fun x => clipValue_mem (1/100) (by norm_num) x) (s id).data

/-- C3: each outer iteration of the training loop performs exactly 30
discriminator gradient steps, every discriminator gradient step is
immediately followed by the weight clip, and exactly one generator gradient
step occurs, after all 30 discriminator steps. -/
theorem train_loop_thirty_disc_steps_then_one_gen :
    trainIteration.count TrainEvent.discGradStep = 30
    ∧ ((trainIteration.zip trainIteration.tail).all
        (fun pr => pr.1 != TrainEvent.discGradStep
          || pr.2 == TrainEvent.clipStep)) = true
    ∧ trainIteration.count TrainEvent.genGradStep = 1
    ∧ (trainIteration.takeWhile
        (fun e => e != TrainEvent.genGradStep)).count
          TrainEvent.discGradStep = 30 := by decide

/-- C4: every pixel of `generate(noise)` lies in `[0, 1]`, because the raw
generator output is squashed through the sigmoid. -/
theorem generate_pixels_in_unit_interval (s : Store ℝ) (noise : Tensor ℝ) :
    allP (fun p => 0 ≤ p ∧ p ≤ 1) (generate s noise).data := by
  simp only [generate, Tensor.map]
  exact allP_map sigmoid _ sigmoid_mem_unit (apply_network s generator noise).data

/-- C5: `generator_objective(noise)` is the negation of the mean
discriminator score on the generated images. -/
theorem generator_objective_neg_mean_critic (s : Store ℝ) (noise : Tensor ℝ) :
    generator_objective s noise
      = -Tensor.mean (discriminate s (generate s noise))
    ∧ generator_objective s noise
      = -((discriminate s (generate s noise)).data.sum
          / ((discriminate s (generate s noise)).data.length : ℝ)) :=
  ⟨rfl, rfl⟩

/-- C6: `clip_discriminator(mag=0.01)` is idempotent on every store, and any
value already inside `[-0.01, 0.01]` is left unchanged by the scalar clip. -/
theorem clip_discriminator_idempotent :
    (∀ (s : Store ℚ) (id : VarId),
        clip_discriminator (1/100) (clip_discriminator (1/100) s) id
          = clip_discriminator (1/100) s id)
    ∧ ∀ x : ℚ, -(1/100) ≤ x → x ≤ 1/100 → clipValue (1/100) x = x := by
  constructor
  · intro s id
    by_cases hid : id ∈ discriminator_vars
    · simp only [clip_discriminator, if_pos hid]
      exact Tensor.clip_clip (1/100) (by norm_num) (s id)
    · simp only [clip_discriminator, if_neg hid]
  · intro x h1 h2
    exact clipValue_fix h1 h2

/-- Witness for C6: double clip equals single clip on the fresh store at
variable 14, and 0 (already in range) is a fixed point of the scalar clip. -/
theorem clip_discriminator_idempotent_wit :
    clip_discriminator (1/100) (clip_discriminator (1/100) (freshStore : Store ℚ)) 14
        = clip_discriminator (1/100) (freshStore : Store ℚ) 14
    ∧ clipValue (1/100) (0 : ℚ) = 0 :=
  ⟨clip_discriminator_idempotent.1 freshStore 14,
   clip_discriminator_idempotent.2 0 (by norm_num) (by norm_num)⟩

/-- C7: the generator optimizer step (built with
`var_list=gan.generator_vars()`) leaves every variable outside the generator
— in particular every discriminator parameter — unchanged, and symmetrically
for the discriminator optimizer step. -/
theorem optimizer_steps_only_touch_own_vars (upd : VarId → Tensor ℚ → Tensor ℚ)
    (s : Store ℚ) (id : VarId) :
    (id ∉ generator_vars → opt_gen_step upd s id = s id)
    ∧ (id ∈ discriminator_vars → opt_gen_step upd s id = s id)
    ∧ (id ∉ discriminator_vars → opt_disc_step upd s id = s id)
    ∧ (id ∈ generator_vars → opt_disc_step upd s id = s id) := by
  refine ⟨?_, ?_, ?_, ?_⟩
  · intro h
    simp only [opt_gen_step, optimizerStep, if_neg h]
  · intro h
    simp only [opt_gen_step, optimizerStep, if_neg (not_mem_gen_of_mem_disc h)]
  · intro h
    simp only [opt_disc_step, optimizerStep, if_neg h]
  · intro h
    simp only [opt_disc_step, optimizerStep, if_neg (not_mem_disc_of_mem_gen h)]

/-- Witness for C7: a generator step leaves discriminator variable 14
unchanged and a discriminator step leaves generator variable 0 unchanged. -/
theorem optimizer_steps_only_touch_own_vars_wit :
    opt_gen_step (fun _ t => t) (freshStore : Store ℚ) 14
        = (freshStore : Store ℚ) 14
    ∧ opt_disc_step (fun _ t => t) (freshStore : Store ℚ) 0
        = (freshStore : Store ℚ) 0 :=
  ⟨(optimizer_steps_only_touch_own_vars (fun _ t => t) freshStore 14).2.1
      (by decide),
   (optimizer_steps_only_touch_own_vars (fun _ t => t) freshStore 0).2.2.2
      (by decide)⟩

set_option maxRecDepth 4000 in
/-- Counterexample to C8: in the loop body of `train`, the (unique) print of
the losses happens strictly before the (unique) checkpoint save — so the
model state is not persisted before the printing — and even before the
generator gradient step. -/
theorem print_precedes_save_cex :
    trainIteration.count TrainEvent.printLosses = 1
    ∧ trainIteration.count TrainEvent.saveCheckpoint = 1
    ∧ ¬ (trainIteration.indexOf TrainEvent.saveCheckpoint
          < trainIteration.indexOf TrainEvent.printLosses)
    ∧ trainIteration.indexOf TrainEvent.printLosses
        < trainIteration.indexOf TrainEvent.genGradStep := by decide

set_option maxRecDepth 4000 in
/-- C8 (amended): in each outer iteration the losses are printed after the
generator loss is evaluated but before the generator gradient step; the
checkpoint save follows the generator gradient step and is the last action of
the iteration. -/
theorem print_then_gen_step_then_save :
    trainIteration.count TrainEvent.printLosses = 1
    ∧ trainIteration.count TrainEvent.genGradStep = 1
    ∧ trainIteration.count TrainEvent.saveCheckpoint = 1
    ∧ trainIteration.indexOf TrainEvent.evalGenLoss
        < trainIteration.indexOf TrainEvent.printLosses
    ∧ trainIteration.indexOf TrainEvent.printLosses
        < trainIteration.indexOf TrainEvent.genGradStep
    ∧ trainIteration.indexOf TrainEvent.genGradStep
        < trainIteration.indexOf TrainEvent.saveCheckpoint
    ∧ trainIteration.getLast? = some TrainEvent.saveCheckpoint := by decide

/-- Counterexample to C9: on the unknown subcommand `foo` the program prints
`Unknown command: foo`, which is not the usage message (though it dispatches
no model operation and exits with code 0, like the missing-argument case). -/
theorem unknown_command_message_cex :
    (mainRun ["mnist_gan", "foo"]).printed = ["Unknown command: " ++ "foo"]
    ∧ (mainRun ["mnist_gan", "foo"]).printed ≠ [usageMessage]
    ∧ (mainRun ["mnist_gan", "foo"]).dispatched = none
    ∧ (mainRun ["mnist_gan", "foo"]).exitCode = 0 := by decide

/-- C9 (amended): a missing subcommand prints the usage message, an unknown
subcommand prints an `Unknown command` diagnostic; in both cases no model
operation runs and the exit code is 0, the same in the two cases. -/
theorem cli_bad_invocation_behavior (argv : List String) :
    (argv.length < 2 → mainRun argv = ⟨[usageMessage], none, 0⟩)
    ∧ (2 ≤ argv.length → argv.getD 1 "" ≠ "create" → argv.getD 1 "" ≠ "train" →
        argv.getD 1 "" ≠ "generate" →
        mainRun argv = ⟨["Unknown command: " ++ argv.getD 1 ""], none, 0⟩) := by
  constructor
  · intro h
    simp only [mainRun, if_pos h]
  · intro hlen h1 h2 h3
    have hnot : ¬ argv.length < 2 := not_lt.mpr hlen
    simp only [mainRun, if_neg hnot, if_neg h1, if_neg h2, if_neg h3]

/-- Witness for the amended C9 at the concrete invocations `mnist_gan`
(missing subcommand) and `mnist_gan foo` (unknown subcommand). -/
theorem cli_bad_invocation_behavior_wit :
    mainRun ["mnist_gan"] = ⟨[usageMessage], none, 0⟩
    ∧ mainRun ["mnist_gan", "foo"]
        = ⟨["Unknown command: " ++ "foo"], none, 0⟩ :=
  ⟨(cli_bad_invocation_behavior ["mnist_gan"]).1 (by decide),
   (cli_bad_invocation_behavior ["mnist_gan", "foo"]).2
     (by decide) (by decide) (by decide) (by decide)⟩

/-- C10: `clip_discriminator` leaves every generator parameter — indeed every
variable outside `discriminator_vars` — unchanged, for every magnitude and
starting store. -/
theorem clip_discriminator_fixes_generator (s : Store ℚ) (mag : ℚ) :
    allP (fun id => clip_discriminator mag s id = s id) generator_vars
    ∧ ∀ id : VarId, id ∉ discriminator_vars →
        clip_discriminator mag s id = s id := by
  constructor
  · apply allP_of_forall
    intro id hid
    simp only [clip_discriminator, if_neg (not_mem_disc_of_mem_gen hid)]
  · intro id h
    simp only [clip_discriminator, if_neg h]

/-- Witness for C10: the clip leaves generator variable 0 of the fresh store
unchanged. -/
theorem clip_discriminator_fixes_generator_wit :
    clip_discriminator (1/100) (freshStore : Store ℚ) 0
        = (freshStore : Store ℚ) 0 :=
  (clip_discriminator_fixes_generator freshStore (1/100)).2 0 (by decide)
